import Mathlib

/-!
Verification development for `troubleshoot.py` (ERPNext Doctor troubleshooting
wizard).  The script's engine is shallowly embedded: external process results
are passed in as explicit `ProcOutcome` values, the host filesystem state
touched by the asset resync is an explicit record, and Python values decoded
from JSON are an inductive `Json` type.  Every definition mirrors the source
function of the same (snake_case) name.
-/

namespace ERPNextDoctor

/-- JSON values as produced by Python `json.loads`.  Objects keep their member
order (Python dicts preserve insertion order) and duplicate keys are collapsed
at parse time exactly as a Python dict literal would collapse them.  Numbers
are modelled as integers only: every numeric literal appearing in the
script's data is an integer, and the parser rejects the unmodelled forms
rather than misreading them. -/
inductive Json where
  | null
  | bool (b : Bool)
  | num (n : Int)
  | str (s : String)
  | arr (elems : List Json)
  | obj (members : List (String × Json))

/-- Python exceptions that the script's code paths can raise or catch. -/
inductive PyExc where
  | jsonDecodeError
  | typeError
  | attributeError
deriving Repr, DecidableEq

/-- Python truthiness (`bool(x)`) of a decoded JSON value. -/
def truthy : Json → Bool
  | .null => false
  | .bool b => b
  | .num n => n != 0
  | .str s => s != ""
  | .arr xs => !xs.isEmpty
  | .obj kvs => !kvs.isEmpty

/-- Python `dict.get(k)`: the value at key `k`, or `None`-as-`Option.none`. -/
def dictGet? (kvs : List (String × Json)) (k : String) : Option Json :=
  (kvs.find? (fun p => p.1 == k)).map (·.2)

/-- Python `dict.get(k, default)`. -/
def dictGetD (kvs : List (String × Json)) (k : String) (d : Json) : Json :=
  (dictGet? kvs k).getD d

/-- Python `d[k] = v` on an insertion-ordered dict: overwrite in place when the
key exists, append otherwise. -/
def objSet (kvs : List (String × Json)) (k : String) (v : Json) :
    List (String × Json) :=
  if kvs.any (fun p => p.1 == k) then
    kvs.map (fun p => if p.1 == k then (k, v) else p)
  else
    kvs ++ [(k, v)]

/-- Python `str.strip()` restricted to the ASCII whitespace the script ever
meets (space, tab, carriage return, newline). -/
def pyStrip (s : String) : String :=
  String.mk (((s.toList.dropWhile Char.isWhitespace).reverse.dropWhile
    Char.isWhitespace).reverse)

/-- Python `needle in hay` on strings: substring containment. -/
def strContains (hay needle : String) : Bool :=
  hay.toList.tails.any (fun t => needle.toList.isPrefixOf t)

/-- Single-quote character, used when assembling the shell/SQL text the script
builds. -/
def sq : String := String.singleton (Char.ofNat 39)

/-- Python `s.replace(c, c2)` for the one use in the script:
`new_config_json.replace('"', '\\"')`, i.e. every double quote becomes
backslash double-quote. -/
def escapeQuotes (s : String) : String :=
  String.mk ((s.toList.map (fun c =>
    if c = '"' then ['\\', '"'] else [c])).flatten)

/-- Opening-brace character. -/
def lbrace : Char := Char.ofNat 123

/-- Closing-brace character. -/
def rbrace : Char := Char.ofNat 125

/-- Skip JSON whitespace (space, tab, newline, carriage return), as
`json.loads` does between tokens. -/
def skipWs : List Char → List Char
  | [] => []
  | c :: cs => if c = ' ' || c = '\t' || c = '\n' || c = '\r' then skipWs cs
      else c :: cs

/-- Body of a JSON string literal, after the opening quote.  Handles the
escape sequences the script's data can contain; `\u` escapes are not
modelled and make the parse fail rather than be misread. -/
def parseStringBody (fuel : Nat) (cs : List Char) (acc : List Char) :
    Option (String × List Char) :=
  match fuel, cs with
  | 0, _ => none
  | _, [] => none
  | fuel+1, c :: rest =>
    if c = '"' then some (String.mk acc.reverse, rest)
    else if c = '\\' then
      match rest with
      | [] => none
      | e :: rest2 =>
        let dec : Option Char :=
          if e = '"' then some '"'
          else if e = '\\' then some '\\'
          else if e = '/' then some '/'
          else if e = 'n' then some '\n'
          else if e = 't' then some '\t'
          else if e = 'r' then some '\r'
          else if e = 'b' then some (Char.ofNat 8)
          else if e = 'f' then some (Char.ofNat 12)
          else none
        match dec with
        | some d => parseStringBody fuel rest2 (d :: acc)
        | none => none
    else parseStringBody fuel rest (c :: acc)

/-- Take a maximal run of decimal digits. -/
def takeDigits : List Char → List Char × List Char
  | [] => ([], [])
  | c :: cs =>
    if c.isDigit then
      let p := takeDigits cs
      (c :: p.1, p.2)
    else ([], c :: cs)

/-- Decimal digits to a natural number. -/
def digitsToNat (ds : List Char) : Nat :=
  ds.foldl (fun n c => 10 * n + (c.toNat - 48)) 0

/-- A parsed integer must not be followed by a fraction or exponent marker:
floats are outside the model, so they fail instead of being misread. -/
def intBoundaryOk : List Char → Bool
  | [] => true
  | c :: _ => !(c = '.' || c = 'e' || c = 'E')

/-- Expect the given literal characters. -/
def expectChars : List Char → List Char → Option (List Char)
  | [], cs => some cs
  | _ :: _, [] => none
  | e :: es, c :: cs => if c = e then expectChars es cs else none

mutual

/-- One JSON value, in the style of `json.loads`.  `fuel` strictly exceeds
the recursion any input of the chosen size can need. -/
def parseVal : Nat → List Char → Option (Json × List Char)
  | 0, _ => none
  | fuel+1, cs =>
    match skipWs cs with
    | [] => none
    | c :: rest =>
      if c = '"' then
        (parseStringBody fuel rest []).map (fun p => (Json.str p.1, p.2))
      else if c = lbrace then
        match skipWs rest with
        | c2 :: rest2 =>
          if c2 = rbrace then some (Json.obj [], rest2)
          else parseObjMembers fuel (c2 :: rest2) []
        | [] => none
      else if c = '[' then
        match skipWs rest with
        | c2 :: rest2 =>
          if c2 = ']' then some (Json.arr [], rest2)
          else parseArrElems fuel (c2 :: rest2) []
        | [] => none
      else if c = 't' then
        (expectChars ['r', 'u', 'e'] rest).map (fun r => (Json.bool true, r))
      else if c = 'f' then
        (expectChars ['a', 'l', 's', 'e'] rest).map
          (fun r => (Json.bool false, r))
      else if c = 'n' then
        (expectChars ['u', 'l', 'l'] rest).map (fun r => (Json.null, r))
      else if c = '-' then
        match takeDigits rest with
        | ([], _) => none
        | (ds, r) =>
          if intBoundaryOk r then some (Json.num (-(digitsToNat ds : Int)), r)
          else none
      else if c.isDigit then
        match takeDigits (c :: rest) with
        | (ds, r) =>
          if intBoundaryOk r then some (Json.num (digitsToNat ds : Int), r)
          else none
      else none

/-- Members of a JSON object after the opening brace (input starts at a key).
Duplicate keys overwrite in place, as in a Python dict. -/
def parseObjMembers : Nat → List Char → List (String × Json) →
    Option (Json × List Char)
  | 0, _, _ => none
  | fuel+1, cs, acc =>
    match cs with
    | [] => none
    | c :: rest =>
      if c = '"' then
        match parseStringBody fuel rest [] with
        | none => none
        | some (k, r1) =>
          match skipWs r1 with
          | c2 :: r2 =>
            if c2 = ':' then
              match parseVal fuel r2 with
              | none => none
              | some (v, r3) =>
                let acc2 := objSet acc k v
                match skipWs r3 with
                | c3 :: r4 =>
                  if c3 = ',' then parseObjMembers fuel (skipWs r4) acc2
                  else if c3 = rbrace then some (Json.obj acc2, r4)
                  else none
                | [] => none
            else none
          | [] => none
      else none

/-- Elements of a JSON array after the opening bracket (input starts at a
value). -/
def parseArrElems : Nat → List Char → List Json → Option (Json × List Char)
  | 0, _, _ => none
  | fuel+1, cs, acc =>
    match parseVal fuel cs with
    | none => none
    | some (v, r) =>
      match skipWs r with
      | c :: r2 =>
        if c = ',' then parseArrElems fuel r2 (acc ++ [v])
        else if c = ']' then some (Json.arr (acc ++ [v]), r2)
        else none
      | [] => none

end

/-- Python `json.loads`: parse one JSON document, allowing surrounding
whitespace, requiring the whole input to be consumed.  `none` is a
`json.JSONDecodeError`. -/
def loads (s : String) : Option Json :=
  match parseVal (2 * s.length + 16) s.toList with
  | some (j, rest) => if (skipWs rest).isEmpty then some j else none
  | none => none

/-- Escape one character of a JSON string the way `json.dumps` does for the
character set the script's data uses. -/
def jsonEscapeChar (c : Char) : List Char :=
  if c = '"' then ['\\', '"']
  else if c = '\\' then ['\\', '\\']
  else if c = '\n' then ['\\', 'n']
  else if c = '\t' then ['\\', 't']
  else if c = '\r' then ['\\', 'r']
  else [c]

/-- Escape a JSON string body as `json.dumps` does. -/
def jsonEscape (s : String) : String :=
  String.mk ((s.toList.map jsonEscapeChar).flatten)

/-- A run of `n` spaces (indentation). -/
def spacesN (n : Nat) : String := String.mk (List.replicate n ' ')

mutual

/-- Python `json.dumps(x, indent=1)` at indentation depth `ind`. -/
def dumpsV (ind : Nat) : Json → String
  | .null => "null"
  | .bool true => "true"
  | .bool false => "false"
  | .num n => toString n
  | .str s => "\"" ++ jsonEscape s ++ "\""
  | .arr [] => "[]"
  | .arr (x :: xs) =>
    "[\n" ++ spacesN (ind+1) ++ dumpsV (ind+1) x ++ dumpsArrItems (ind+1) xs
      ++ "\n" ++ spacesN ind ++ "]"
  | .obj [] => "\x7b\x7d"
  | .obj (kv :: kvs) =>
    "\x7b\n" ++ spacesN (ind+1) ++ dumpsMember (ind+1) kv
      ++ dumpsObjItems (ind+1) kvs ++ "\n" ++ spacesN ind ++ "\x7d"

/-- One object member, `"key": value`. -/
def dumpsMember (ind : Nat) : String × Json → String
  | (k, v) => "\"" ++ jsonEscape k ++ "\": " ++ dumpsV ind v

/-- Remaining array items, each preceded by `,\n` and indentation. -/
def dumpsArrItems (ind : Nat) : List Json → String
  | [] => ""
  | x :: xs => ",\n" ++ spacesN ind ++ dumpsV ind x ++ dumpsArrItems ind xs

/-- Remaining object members, each preceded by `,\n` and indentation. -/
def dumpsObjItems (ind : Nat) : List (String × Json) → String
  | [] => ""
  | kv :: kvs => ",\n" ++ spacesN ind ++ dumpsMember ind kv
      ++ dumpsObjItems ind kvs

end

/-- Python `json.dumps(x, indent=1)` as used on the site config. -/
def dumpsIndent1 (j : Json) : String := dumpsV 0 j

/-- Observable completion of a spawned process: exit code and captured,
untrimmed stdout and stderr text.  Only normal completions are modelled;
host-environment failures that keep a process from being spawned at all
(and operator interrupts) are outside the embedding. -/
structure ProcOutcome where
  exitCode : Nat
  stdout : String
  stderr : String
deriving Repr, DecidableEq

/-- The Python value `run_command` returns: a string
(`result.stdout.strip()`), the literal `True` (when output capture is off),
or `None` (the caught-failure path). -/
inductive RunResult where
  | output (s : String)
  | trueVal
  | noneVal
deriving Repr, DecidableEq

/-- Return value of `run_command` together with the lines it prints. -/
structure RunEffect where
  result : RunResult
  printed : List String
deriving Repr, DecidableEq

/-- `run_command` (troubleshoot.py lines 20-39).  `subprocess.run` is called
with `check=not ignore_errors`, so a non-zero exit raises
`CalledProcessError` exactly when `ignore_errors` is false; the handler
prints the command and, when output was captured, the stderr text, and
returns `None`.  On the non-raising path the trimmed stdout (or the literal
`True` when capture is off) is returned — even when the process failed but
`ignore_errors` is true. -/
def run_command (command : String) (outcome : ProcOutcome)
    (return_output : Bool) (ignore_errors : Bool) : RunEffect :=
  if outcome.exitCode != 0 && !ignore_errors then
    { result := .noneVal
      printed := ["Error running command: " ++ command] ++
        (if return_output then ["Stderr: " ++ outcome.stderr] else []) }
  else if return_output then
    { result := .output (pyStrip outcome.stdout), printed := [] }
  else
    { result := .trueVal, printed := [] }

/-- Python truthiness of a `run_command` result (`if not output`,
`if logs:`). -/
def resTruthy : RunResult → Bool
  | .output s => s != ""
  | .trueVal => true
  | .noneVal => false

/-- View a `run_command` result as the string it carries, when it is one. -/
def resStr? : RunResult → Option String
  | .output s => some s
  | _ => none

/-- `get_docker_status` (lines 41-55) applied to the `run_command` result of
the `docker compose ps --format json` query.  `.error` is an uncaught Python
exception escaping the function: the source catches `json.JSONDecodeError`
only, so `.get("State", ...)` on a decoded value that is not a dict (nor a
list headed by a dict) raises `AttributeError` out of the function.  The
`trueVal` argument cannot arise from the actual call (output capture is on);
it would be `json.loads(True)`, a `TypeError`. -/
def get_docker_status (output : RunResult) : Except PyExc Json :=
  match output with
  | .noneVal => .ok (.str "not_found")
  | .trueVal => .error .typeError
  | .output s =>
    if s = "" then .ok (.str "not_found")
    else
      match loads s with
      | none => .ok (.str "parse_error")
      | some (.arr []) => .ok (.str "stopped")
      | some (.arr (x :: _)) =>
        match x with
        | .obj kvs => .ok (dictGetD kvs "State" (.str "unknown"))
        | _ => .error .attributeError
      | some (.obj kvs) => .ok (dictGetD kvs "State" (.str "unknown"))
      | some _ => .error .attributeError

/-- The fixed essential service list of `check_general_health` (line 64). -/
def essentialServices : List String :=
  ["backend", "frontend", "db", "redis-cache", "redis-queue"]

/-- Python `status != "running"` where `status` is any decoded value (a
non-string status value is unequal to the string). -/
def jsonNeRunning : Json → Bool
  | .str s => s != "running"
  | _ => true

/-- The `all_up` accumulation loop of `check_general_health` (lines 70-74)
over an arbitrary probe order. -/
def allUpLoop (probe : String → Json) (services : List String) : Bool :=
  services.foldl (fun all_up service =>
    if jsonNeRunning (probe service) then false else all_up) true

/-- `check_general_health` (lines 61-81): probes every essential service in
the fixed order and returns `all_up`, which is also the function's return
value (`False` on the CRITICAL branch, `True` otherwise).  `probe` gives the
status value obtained for each service. -/
def check_general_health (probe : String → Json) : Bool :=
  allUpLoop probe essentialServices

/-- Verdicts of `diagnose_db_access`: `connected` stands for the Python
literal `True` returned on the success path (line 100); the other three are
the strings returned on lines 113, 116 and 118. -/
inductive Diag where
  | connected
  | access_denied
  | conn_refused
  | unknown_db_error
deriving Repr, DecidableEq

/-- The fault-signature phrase of line 111. -/
def accessDeniedPhrase : String := "Access denied for user"

/-- The fault-signature phrase of line 114 (apostrophe included). -/
def connRefusedPhrase : String := "Can" ++ sq ++ "t connect to MySQL"

/-- Lines 110-118: classify the fetched log tail.  `none` is the `None`
returned by a failed `run_command`; a falsy value skips both phrase checks
and falls through to `unknown_db_error`. -/
def classifyLogs : Option String → Diag
  | some s =>
    if s != "" then
      if strContains s accessDeniedPhrase then .access_denied
      else if strContains s connRefusedPhrase then .conn_refused
      else .unknown_db_error
    else .unknown_db_error
  | none => .unknown_db_error

/-- Rendering of the in-container connectivity probe command
(lines 90-94). -/
def checkCmdStr : String :=
  "docker compose -f docker-compose.yml exec -T backend python3 -c " ++
    "import frappe; frappe.connect(); print(" ++ sq ++ "Connected" ++ sq ++ ")"

/-- Rendering of the log-tail fetch command (line 109). -/
def logsCmdStr : String :=
  "docker compose -f docker-compose.yml logs --tail 20 backend"

/-- `diagnose_db_access` (lines 83-118), parameterized by the outcomes of
the two processes it may spawn.  Returns the verdict together with whether
the log-tail fetch was executed.  The probe runs with `ignore_errors=True`,
so its result is always the trimmed stdout, whatever the exit code. -/
def diagnose_db_access (probeOutcome logsOutcome : ProcOutcome) :
    Diag × Bool :=
  let output := (run_command checkCmdStr probeOutcome true true).result
  if resTruthy output &&
      (match output with
       | .output s => strContains s "Connected"
       | _ => false) then
    (.connected, false)
  else
    let logs := (run_command logsCmdStr logsOutcome true false).result
    (classifyLogs (resStr? logs), true)

/-- Python truthiness of a `dict.get(k)` result (`None` is falsy). -/
def optTruthy : Option Json → Bool
  | some j => truthy j
  | none => false

/-- Python `str()` rendering of a decoded value, for the f-strings that
build the SQL text (containers render in `repr` style; the configs the
script meets hold plain strings, which render without quotes). -/
def pyStr : Json → String
  | .null => "None"
  | .bool true => "True"
  | .bool false => "False"
  | .num n => toString n
  | .str s => s
  | .arr _ => "[...]"
  | .obj _ => "\x7b...\x7d"

/-- The fixed project-default password of line 156/164. -/
def defaultRootPassword : String := "SecureRootPassword456!"

/-- The SQL text of lines 171-176 (a Python triple-quoted f-string:
leading newline and indentation included). -/
def sqlScript (db_name target_pass : String) : String :=
  "\n        DROP USER IF EXISTS " ++ sq ++ db_name ++ sq ++ "@" ++ sq ++
    "%" ++ sq ++ ";\n" ++
  "        CREATE USER " ++ sq ++ db_name ++ sq ++ "@" ++ sq ++ "%" ++ sq ++
    " IDENTIFIED BY " ++ sq ++ target_pass ++ sq ++ ";\n" ++
  "        GRANT ALL PRIVILEGES ON `" ++ db_name ++ "`.* TO " ++ sq ++
    db_name ++ sq ++ "@" ++ sq ++ "%" ++ sq ++ ";\n" ++
  "        FLUSH PRIVILEGES;\n        "

/-- Content landing in the remote file from `bash -c "echo '<s>' > path"`
(lines 184-189) when `s` contains no single-quote character: bash passes the
single-quoted text verbatim — backslashes included, since the builtin `echo`
does not process escapes — and `echo` appends a newline. -/
def echoSingleQuoted (s : String) : String := s ++ "\n"

/-- `json.loads(config_str)` where `config_str` is a raw `run_command`
result (line 144): loading `None` raises `TypeError`, a failed parse raises
`json.JSONDecodeError`; both are caught by the `except Exception` handler of
line 206. -/
def loadsOfRun : RunResult → Except PyExc Json
  | .output s =>
    match loads s with
    | some j => .ok j
    | none => .error .jsonDecodeError
  | .noneVal => .error .typeError
  | .trueVal => .error .typeError

/-- Externally visible actions of `fix_db_permissions` beyond the initial
config read: the config write-back (with the exact file content produced),
the `mysql` credential-reset statement, and the backend restart. -/
inductive FixDbStep where
  | wroteConfig (fileContent : String)
  | ranSql (sql : String)
  | restartedBackend
deriving Repr, DecidableEq

/-- How `fix_db_permissions` finished: `parseError` is the
`except Exception` handler of line 206 ("Error parsing site config"),
`missingFields` the early return of lines 148-150, `cancelled` the return of
line 168 on a non-'1'/'2' choice, `completed` the normal end. -/
inductive FixDbOutcome where
  | parseError
  | missingFields
  | cancelled
  | completed
deriving Repr, DecidableEq

/-- `fix_db_permissions` (lines 132-207), parameterized by the raw
`run_command` result of the config `cat` and by the operator's menu choice.
Returns the executed actions in order and the outcome. -/
def fix_db_permissions (config_str : RunResult) (db_choice : String) :
    List FixDbStep × FixDbOutcome :=
  match loadsOfRun config_str with
  | .error _ => ([], .parseError)
  | .ok config =>
    match config with
    | .obj kvs =>
      let db_name := dictGet? kvs "db_name"
      let db_pass := dictGet? kvs "db_password"
      if !optTruthy db_name || !optTruthy db_pass then ([], .missingFields)
      else if db_choice = "2" then
        let target_pass := Json.str defaultRootPassword
        let new_config := objSet kvs "db_password" target_pass
        let new_config_json := dumpsIndent1 (.obj new_config)
        let escaped_json := escapeQuotes new_config_json
        ([.wroteConfig (echoSingleQuoted escaped_json),
          .ranSql (sqlScript (pyStr (db_name.getD .null)) (pyStr target_pass)),
          .restartedBackend], .completed)
      else if db_choice = "1" then
        ([.ranSql (sqlScript (pyStr (db_name.getD .null))
            (pyStr (db_pass.getD .null))),
          .restartedBackend], .completed)
      else ([], .cancelled)
    | _ => ([], .parseError)

/-- Statement helper: the parsed members of a site config that passes the
checks of lines 143-150 (the `cat` output decodes to an object whose
`db_name` and `db_password` are present and truthy); `none` when any of
those checks fails. -/
def goodConfig? (r : RunResult) : Option (List (String × Json)) :=
  match loadsOfRun r with
  | .ok (.obj kvs) =>
    if optTruthy (dictGet? kvs "db_name") &&
        optTruthy (dictGet? kvs "db_password") then some kvs
    else none
  | _ => none

/-- Host-side filesystem state touched by `fix_assets`: whether the local
transient staging directory `asset_sync_temp` exists. -/
structure HostFs where
  assetSyncTempExists : Bool
deriving Repr, DecidableEq

/-- Shared rendering of the compose invocation prefix of every command. -/
def composeCmd : String := "docker compose -f docker-compose.yml"

/-- Stage 1 (line 218): regenerate assets. -/
def benchBuildCmd : String :=
  composeCmd ++ " exec -T backend bench build --production --force"

/-- Stage 2 (lines 222-238): resolve the symlinked asset directory inside
the backend (rendering of the embedded bash script). -/
def resolveSymlinksCmd : String :=
  composeCmd ++ " exec -T -u root backend bash -c " ++
    "cd /home/frappe/frappe-bench/sites/ && if [ -L assets ]; then " ++
    "cp -rL assets assets_resolved; rm assets; mv assets_resolved assets; " ++
    "else rm -rf assets_real && mkdir -p assets_real && " ++
    "cp -rL assets/* assets_real/ && rm -rf assets/* && " ++
    "cp -r assets_real/* assets/ && rm -rf assets_real; fi && " ++
    "chown -R 1000:1000 assets"

/-- Stage 3 (line 245): extract the resolved assets to the host staging
directory. -/
def cpBackendToHostCmd : String :=
  composeCmd ++ " cp backend:/home/frappe/frappe-bench/sites/assets/. " ++
    "asset_sync_temp"

/-- Stage 4/5/6, path A (lines 251-254). -/
def rmFrontendAssetsCmd : String :=
  composeCmd ++ " exec -T -u root frontend rm -rf " ++
    "/home/frappe/frappe-bench/sites/assets"

/-- Recreate the path-A target (line 252). -/
def mkdirFrontendAssetsCmd : String :=
  composeCmd ++ " exec -T -u root frontend mkdir -p " ++
    "/home/frappe/frappe-bench/sites/assets"

/-- Copy staged assets into path A (line 253). -/
def cpHostToFrontendCmd : String :=
  composeCmd ++ " cp asset_sync_temp/. " ++
    "frontend:/home/frappe/frappe-bench/sites/assets/"

/-- Fix ownership in path A (line 254). -/
def chownFrontendAssetsCmd : String :=
  composeCmd ++ " exec -T -u root frontend chown -R 101:101 " ++
    "/home/frappe/frappe-bench/sites/assets"

/-- Stage 4/5/6, path B (lines 257-260). -/
def rmNginxAssetsCmd : String :=
  composeCmd ++ " exec -T -u root frontend rm -rf /usr/share/nginx/html/assets"

/-- Recreate the path-B target (line 258). -/
def mkdirNginxAssetsCmd : String :=
  composeCmd ++ " exec -T -u root frontend mkdir -p " ++
    "/usr/share/nginx/html/assets"

/-- Copy staged assets into path B (line 259). -/
def cpHostToNginxCmd : String :=
  composeCmd ++ " cp asset_sync_temp/. frontend:/usr/share/nginx/html/assets/"

/-- Fix ownership in path B (line 260). -/
def chownNginxAssetsCmd : String :=
  composeCmd ++ " exec -T -u root frontend chown -R 101:101 " ++
    "/usr/share/nginx/html/assets"

/-- Stage 7 (line 269): clear the site cache. -/
def clearCacheCmd : String :=
  composeCmd ++ " exec -T backend bench --site frontend clear-cache"

/-- `fix_assets` (lines 209-271), parameterized by the outcomes of its
twelve spawned commands (`outcomes i` is the i-th call in program order) and
by whether the stage-3 `docker compose cp` leaves the staging directory
present on the host (`cpLeavesStaging`: a failed copy may leave it absent or
partially created).  The source discards every `run_command` return value
and contains no early return, so the function is straight-line: the
pre-clean of lines 242-244 runs before the stage-3 copy, and the
unconditional cleanup of lines 263-265 runs before the cache clear.
Returns the final host filesystem state together with the effects of the
twelve `run_command` calls in order. -/
def fix_assets (outcomes : Nat → ProcOutcome) (cpLeavesStaging : Bool)
    (fs0 : HostFs) : HostFs × List RunEffect :=
  let e1 := run_command benchBuildCmd (outcomes 0) true false
  let e2 := run_command resolveSymlinksCmd (outcomes 1) true false
  let fs1 := if fs0.assetSyncTempExists then
      { fs0 with assetSyncTempExists := false } else fs0
  let e3 := run_command cpBackendToHostCmd (outcomes 2) true false
  let fs2 : HostFs := { fs1 with assetSyncTempExists := cpLeavesStaging }
  let e4 := run_command rmFrontendAssetsCmd (outcomes 3) true false
  let e5 := run_command mkdirFrontendAssetsCmd (outcomes 4) true false
  let e6 := run_command cpHostToFrontendCmd (outcomes 5) true false
  let e7 := run_command chownFrontendAssetsCmd (outcomes 6) true false
  let e8 := run_command rmNginxAssetsCmd (outcomes 7) true false
  let e9 := run_command mkdirNginxAssetsCmd (outcomes 8) true false
  let e10 := run_command cpHostToNginxCmd (outcomes 9) true false
  let e11 := run_command chownNginxAssetsCmd (outcomes 10) true false
  let fs3 := if fs2.assetSyncTempExists then
      { fs2 with assetSyncTempExists := false } else fs2
  let e12 := run_command clearCacheCmd (outcomes 11) true false
  (fs3, [e1, e2, e3, e4, e5, e6, e7, e8, e9, e10, e11, e12])

/-- A concrete site config file text as the `cat` of line 140 would return
it: `db_name` and `db_password` present and non-empty, plus one extra
field. -/
def sampleConfigText : String :=
  "\x7b\n \"db_name\": \"mydb\",\n \"db_password\": \"pw\",\n \"host\": \"db\"\n\x7d"

/-- The decoded members of `sampleConfigText`. -/
def sampleConfigMembers : List (String × Json) :=
  [("db_name", .str "mydb"), ("db_password", .str "pw"), ("host", .str "db")]

/-- The file content the mode-2 write-back produces for
`sampleConfigText`. -/
def sampleWrittenBack : String :=
  echoSingleQuoted (escapeQuotes (dumpsIndent1 (.obj
    (objSet sampleConfigMembers "db_password" (.str defaultRootPassword)))))

/-- Statement helper: the decoded shapes on which `.get("State", ...)`
raises — a value that is neither a dict nor a list, or a non-empty list
whose head is not a dict. -/
def jsonBadShape : Json → Bool
  | .obj _ => false
  | .arr [] => false
  | .arr (.obj _ :: _) => false
  | .arr (_ :: _) => true
  | _ => true

/-!  Theorems.  Helper lemmas come first; each claim then has exactly one
theorem, plus a witness or counterexample where called for. -/

/-- The `all_up` loop is the conjunction of the per-service checks. -/
theorem allUpLoop_eq_all (probe : String → Json) (l : List String) :
    allUpLoop probe l = l.all (fun s => !jsonNeRunning (probe s)) := by
  have h : ∀ (l : List String) (b : Bool),
      l.foldl (fun all_up service =>
        if jsonNeRunning (probe service) then false else all_up) b
        = (b && l.all (fun s => !jsonNeRunning (probe s))) := by
    intro l
    induction l with
    | nil => intro b; simp
    | cons x xs ih =>
      intro b
      simp only [List.foldl_cons, List.all_cons, ih]
      cases hx : jsonNeRunning (probe x) <;> simp [hx, Bool.and_assoc]
  simpa [allUpLoop] using h l true

/-- `List.all` is invariant under permutation. -/
theorem all_eq_of_perm {α : Type} (p : α → Bool) {l l' : List α}
    (h : l.Perm l') : l.all p = l'.all p := by
  induction h with
  | nil => rfl
  | cons x _ ih => simp [List.all_cons, ih]
  | swap x y l => simp [List.all_cons, ← Bool.and_assoc, Bool.and_comm]
  | trans _ _ ih1 ih2 => exact ih1.trans ih2

/-- A status value passes the loop check exactly when it is the string
"running". -/
theorem not_jsonNeRunning_iff (j : Json) :
    (!jsonNeRunning j) = true ↔ j = .str "running" := by
  cases j <;> simp [jsonNeRunning]

/-- C6: `check_general_health` returns true iff every probed essential
service's status value is the string "running" (one non-running service
fails the verdict), and the verdict is identical for any permutation of the
probing order. -/
theorem check_general_health_iff_all_running_perm_invariant
    (probe : String → Json) :
    (check_general_health probe = true ↔
      ∀ s ∈ essentialServices, probe s = .str "running")
    ∧ (∀ l : List String, l.Perm essentialServices →
        allUpLoop probe l = check_general_health probe) := by
  constructor
  · rw [check_general_health, allUpLoop_eq_all, List.all_eq_true]
    constructor
    · intro h s hs
      exact (not_jsonNeRunning_iff (probe s)).1 (h s hs)
    · intro h s hs
      exact (not_jsonNeRunning_iff (probe s)).2 (h s hs)
  · intro l hl
    rw [check_general_health, allUpLoop_eq_all, allUpLoop_eq_all]
    exact all_eq_of_perm _ hl

/-- Witness for C6: a concrete reordering of the essential services yields
the same verdict, and an all-running probe passes. -/
theorem check_general_health_perm_witness :
    allUpLoop (fun _ => Json.str "running")
        ["redis-queue", "redis-cache", "db", "frontend", "backend"]
      = check_general_health (fun _ => Json.str "running")
    ∧ check_general_health (fun _ => Json.str "running") = true :=
  ⟨(check_general_health_iff_all_running_perm_invariant
      (fun _ => Json.str "running")).2
      ["redis-queue", "redis-cache", "db", "frontend", "backend"] (by decide),
   (check_general_health_iff_all_running_perm_invariant
      (fun _ => Json.str "running")).1.2 (fun _ _ => rfl)⟩

/-- C5: the log classification is first-match ordered: access-denied phrase
first, connection-refused phrase second, `unknown_db_error` otherwise; text
containing both phrases therefore classifies as access denied and never as
connection refused. -/
theorem classifyLogs_first_match (s : String) :
    (strContains s accessDeniedPhrase = true →
      classifyLogs (some s) = .access_denied)
    ∧ (strContains s accessDeniedPhrase = false →
        strContains s connRefusedPhrase = true →
      classifyLogs (some s) = .conn_refused)
    ∧ (strContains s accessDeniedPhrase = false →
        strContains s connRefusedPhrase = false →
      classifyLogs (some s) = .unknown_db_error) := by
  refine ⟨?_, ?_, ?_⟩
  · intro h1
    have hs : s ≠ "" := by
      intro he; rw [he] at h1; exact absurd h1 (by decide)
    simp [classifyLogs, hs, h1]
  · intro h1 h2
    have hs : s ≠ "" := by
      intro he; rw [he] at h2; exact absurd h2 (by decide)
    simp [classifyLogs, hs, h1, h2]
  · intro h1 h2
    by_cases hs : s = ""
    · rw [hs]; rfl
    · simp [classifyLogs, hs, h1, h2]

/-- Witness for C5: a log line containing both phrases classifies as access
denied. -/
theorem classifyLogs_first_match_witness :
    classifyLogs (some ("Access denied for user x; " ++ connRefusedPhrase))
      = .access_denied :=
  (classifyLogs_first_match ("Access denied for user x; " ++
    connRefusedPhrase)).1 (by decide)

/-- C4: when the trimmed probe output contains the marker "Connected",
diagnosis returns the connected verdict and the log fetch never runs, so no
fault signature is ever consulted. -/
theorem diagnose_db_access_connected_immediate
    (probeOutcome logsOutcome : ProcOutcome)
    (h : strContains (pyStrip probeOutcome.stdout) "Connected" = true) :
    diagnose_db_access probeOutcome logsOutcome = (.connected, false) := by
  have hs : pyStrip probeOutcome.stdout ≠ "" := by
    intro he; rw [he] at h; exact absurd h (by decide)
  simp [diagnose_db_access, run_command, resTruthy, hs, h]

/-- Witness for C4: a probe that printed "Connected" yields the connected
verdict with no log fetch. -/
theorem diagnose_db_access_connected_immediate_witness :
    diagnose_db_access ⟨0, "Connected", ""⟩ ⟨0, "log text", ""⟩
      = (.connected, false) :=
  diagnose_db_access_connected_immediate ⟨0, "Connected", ""⟩
    ⟨0, "log text", ""⟩ (by decide)

/-- C10: when the probe output lacks the marker and the log-tail fetch
yields nothing (the fetch failed, or its trimmed output is empty), diagnosis
fetches the logs and returns `unknown_db_error` without any signature
matching. -/
theorem diagnose_db_access_unknown_on_no_logs
    (probeOutcome logsOutcome : ProcOutcome)
    (h1 : strContains (pyStrip probeOutcome.stdout) "Connected" = false)
    (h2 : logsOutcome.exitCode ≠ 0 ∨ pyStrip logsOutcome.stdout = "") :
    diagnose_db_access probeOutcome logsOutcome
      = (.unknown_db_error, true) := by
  rcases h2 with h2 | h2
  · have hb : (logsOutcome.exitCode != 0) = true := by simpa using h2
    simp [diagnose_db_access, run_command, h1, hb, resStr?, classifyLogs]
  · by_cases hc : logsOutcome.exitCode = 0
    · simp [diagnose_db_access, run_command, h1, hc, h2, resStr?, classifyLogs]
    · have hb : (logsOutcome.exitCode != 0) = true := by simpa using hc
      simp [diagnose_db_access, run_command, h1, hb, resStr?, classifyLogs]

/-- Witness for C10: failed probe and failed log fetch give
`unknown_db_error` after fetching. -/
theorem diagnose_db_access_unknown_on_no_logs_witness :
    diagnose_db_access ⟨1, "", "traceback"⟩ ⟨1, "", "logs error"⟩
      = (.unknown_db_error, true) :=
  diagnose_db_access_unknown_on_no_logs ⟨1, "", "traceback"⟩
    ⟨1, "", "logs error"⟩ (by decide) (Or.inl (by decide))

/-- Counterexample for C3: with failure tolerated, a failing process whose
stdout is "hello" yields the result "hello" — neither `None` nor empty — so
a tolerated failure is not converted to an empty/None result. -/
theorem run_command_tolerated_failure_counterexample :
    (run_command "cmd" ⟨1, "hello", ""⟩ true true).result
        = .output "hello"
    ∧ RunResult.output "hello" ≠ .noneVal
    ∧ RunResult.output "hello" ≠ .output "" := by
  refine ⟨rfl, by decide, by decide⟩

/-- C3 (amended): on non-zero exit, nothing is ever thrown; with failure not
tolerated the result is `None` and the printed error carries the command and
the captured stderr; with failure tolerated the result is the trimmed
captured stdout — empty only when the process wrote no stdout text, not
unconditionally. -/
theorem run_command_failure_contract (command : String) (o : ProcOutcome)
    (h : o.exitCode ≠ 0) :
    run_command command o true false =
      { result := .noneVal
        printed := ["Error running command: " ++ command,
          "Stderr: " ++ o.stderr] }
    ∧ run_command command o true true =
      { result := .output (pyStrip o.stdout), printed := [] } := by
  have hb : (o.exitCode != 0) = true := by simpa using h
  constructor <;> simp [run_command, hb]

/-- Witness for C3 (amended) at a concrete failing process. -/
theorem run_command_failure_contract_witness :
    run_command "c" ⟨2, "", "boom"⟩ true false =
      { result := .noneVal
        printed := ["Error running command: c", "Stderr: boom"] }
    ∧ run_command "c" ⟨2, "", "boom"⟩ true true =
      { result := .output "", printed := [] } :=
  run_command_failure_contract "c" ⟨2, "", "boom"⟩ (by decide)

/-- Counterexample for C7: on output "[1]" — JSON that decodes to a list
whose first element is not a record — the status prober raises an uncaught
`AttributeError` instead of returning a status value. -/
theorem get_docker_status_raises_counterexample :
    get_docker_status (.output "[1]") = .error .attributeError := by rfl

/-- C7 (amended): the prober is total and returns the documented sentinels
on every executor output whose decode, when it succeeds, has record shape —
absent/empty output gives `not_found`, undecodable output gives
`parse_error`, an empty list gives `stopped`, a record (or list headed by a
record) gives its `State` field with default `unknown` — but an output that
decodes to a non-record shape raises an uncaught `AttributeError`. -/
theorem get_docker_status_amended :
    (get_docker_status .noneVal = .ok (.str "not_found"))
    ∧ (get_docker_status (.output "") = .ok (.str "not_found"))
    ∧ (∀ s, s ≠ "" → loads s = none →
        get_docker_status (.output s) = .ok (.str "parse_error"))
    ∧ (∀ s, loads s = some (.arr []) →
        get_docker_status (.output s) = .ok (.str "stopped"))
    ∧ (∀ s kvs, loads s = some (.obj kvs) →
        get_docker_status (.output s)
          = .ok (dictGetD kvs "State" (.str "unknown")))
    ∧ (∀ s kvs rest, loads s = some (.arr (.obj kvs :: rest)) →
        get_docker_status (.output s)
          = .ok (dictGetD kvs "State" (.str "unknown")))
    ∧ (∀ s j, loads s = some j → jsonBadShape j = true →
        get_docker_status (.output s) = .error .attributeError) := by
  have hempty : ∀ (s : String), s = "" → loads s = none := by
    intro s hs; rw [hs]; rfl
  refine ⟨rfl, rfl, ?_, ?_, ?_, ?_, ?_⟩
  · intro s hs hl
    simp [get_docker_status, hs, hl]
  · intro s hl
    have hs : s ≠ "" := by
      intro he; rw [hempty s he] at hl; cases hl
    simp [get_docker_status, hs, hl]
  · intro s kvs hl
    have hs : s ≠ "" := by
      intro he; rw [hempty s he] at hl; cases hl
    simp [get_docker_status, hs, hl]
  · intro s kvs rest hl
    have hs : s ≠ "" := by
      intro he; rw [hempty s he] at hl; cases hl
    simp [get_docker_status, hs, hl]
  · intro s j hl hbad
    have hs : s ≠ "" := by
      intro he; rw [hempty s he] at hl; cases hl
    cases j with
    | null => simp [get_docker_status, hs, hl]
    | bool b => simp [get_docker_status, hs, hl]
    | num n => simp [get_docker_status, hs, hl]
    | str t => simp [get_docker_status, hs, hl]
    | obj kvs => exact absurd hbad (by simp [jsonBadShape])
    | arr elems =>
      cases elems with
      | nil => exact absurd hbad (by simp [jsonBadShape])
      | cons x rest =>
        cases x with
        | obj kvs => exact absurd hbad (by simp [jsonBadShape])
        | null => simp [get_docker_status, hs, hl]
        | bool b => simp [get_docker_status, hs, hl]
        | num n => simp [get_docker_status, hs, hl]
        | str t => simp [get_docker_status, hs, hl]
        | arr ys => simp [get_docker_status, hs, hl]

/-- Witness for C7 (amended): undecodable output gives `parse_error`; a
record output gives its `State` field. -/
theorem get_docker_status_amended_witness :
    get_docker_status (.output "notjson") = .ok (.str "parse_error")
    ∧ get_docker_status (.output "\x7b\"State\": \"running\"\x7d")
        = .ok (.str "running") :=
  ⟨get_docker_status_amended.2.2.1 "notjson" (by decide) rfl,
   get_docker_status_amended.2.2.2.2.1 "\x7b\"State\": \"running\"\x7d"
     [("State", .str "running")] rfl⟩

/-- C2: whatever each stage's process outcome, whatever the stage-3 copy
left behind, and whatever the initial host state, the staging path
`asset_sync_temp` does not exist when `fix_assets` finishes, and all twelve
commands — the post-cleanup cache clear included — were executed. -/
theorem fix_assets_staging_removed (outcomes : Nat → ProcOutcome)
    (cpLeavesStaging : Bool) (fs0 : HostFs) :
    (fix_assets outcomes cpLeavesStaging fs0).1.assetSyncTempExists = false
    ∧ (fix_assets outcomes cpLeavesStaging fs0).2.length = 12 := by
  constructor
  · cases cpLeavesStaging <;> simp [fix_assets]
  · simp [fix_assets]

/-- A `goodConfig?` success means exactly: the raw text decodes to an object
whose `db_name` and `db_password` members are both truthy. -/
theorem goodConfig?_some (config_str : RunResult)
    (kvs : List (String × Json)) (h : goodConfig? config_str = some kvs) :
    loadsOfRun config_str = .ok (.obj kvs)
    ∧ (optTruthy (dictGet? kvs "db_name") &&
        optTruthy (dictGet? kvs "db_password")) = true := by
  unfold goodConfig? at h
  split at h
  next kvs2 heq =>
    split at h
    next hc =>
      cases h
      exact ⟨heq, hc⟩
    next hc => cases h
  next x heq => cases h

/-- C8: without a valid config — the read failed, the JSON does not decode,
it decodes to a non-object, or `db_name`/`db_password` is missing or falsy —
the permission-sync performs no action at all: no config write-back, no SQL
statement, no restart; it aborts on the parse-error or missing-field
path. -/
theorem fix_db_permissions_aborts_without_config
    (config_str : RunResult) (db_choice : String)
    (h : goodConfig? config_str = none) :
    (fix_db_permissions config_str db_choice).1 = []
    ∧ ((fix_db_permissions config_str db_choice).2 = .parseError
       ∨ (fix_db_permissions config_str db_choice).2 = .missingFields) := by
  unfold goodConfig? at h
  cases hl : loadsOfRun config_str with
  | error e => simp [fix_db_permissions, hl]
  | ok j =>
    rw [hl] at h
    cases j with
    | obj kvs =>
      simp at h
      have hg : (!optTruthy (dictGet? kvs "db_name") ||
          !optTruthy (dictGet? kvs "db_password")) = true := by
        cases ha : optTruthy (dictGet? kvs "db_name") <;>
          cases hb : optTruthy (dictGet? kvs "db_password") <;> simp_all
      simp [fix_db_permissions, hl, hg]
    | null => simp [fix_db_permissions, hl]
    | bool b => simp [fix_db_permissions, hl]
    | num n => simp [fix_db_permissions, hl]
    | str s => simp [fix_db_permissions, hl]
    | arr elems => simp [fix_db_permissions, hl]

/-- Witness for C8: undecodable config text aborts with no actions. -/
theorem fix_db_permissions_aborts_without_config_witness :
    (fix_db_permissions (.output "notjson") "1").1 = []
    ∧ ((fix_db_permissions (.output "notjson") "1").2 = .parseError
       ∨ (fix_db_permissions (.output "notjson") "1").2 = .missingFields) :=
  fix_db_permissions_aborts_without_config (.output "notjson") "1" rfl

/-- C9: with a valid config, any operator input other than '1' or '2'
cancels the remediation with no action at all; the config file is written
back exactly when the input is '2'; and mode '1' runs only the SQL statement
and the restart, leaving the config file untouched. -/
theorem fix_db_permissions_mode_gating
    (config_str : RunResult) (kvs : List (String × Json)) (db_choice : String)
    (h : goodConfig? config_str = some kvs) :
    (db_choice ≠ "1" → db_choice ≠ "2" →
      fix_db_permissions config_str db_choice = ([], .cancelled))
    ∧ ((∃ c, FixDbStep.wroteConfig c ∈
          (fix_db_permissions config_str db_choice).1) ↔ db_choice = "2")
    ∧ (db_choice = "1" → ∃ sql,
        (fix_db_permissions config_str db_choice).1
          = [.ranSql sql, .restartedBackend]) := by
  obtain ⟨hl, hc⟩ := goodConfig?_some config_str kvs h
  have hg : (!optTruthy (dictGet? kvs "db_name") ||
      !optTruthy (dictGet? kvs "db_password")) = false := by
    cases ha : optTruthy (dictGet? kvs "db_name") <;>
      cases hb : optTruthy (dictGet? kvs "db_password") <;> simp_all
  by_cases h2 : db_choice = "2"
  · subst h2
    have hfix : fix_db_permissions config_str "2" =
        ([.wroteConfig (echoSingleQuoted (escapeQuotes (dumpsIndent1 (.obj
            (objSet kvs "db_password" (.str defaultRootPassword)))))),
          .ranSql (sqlScript (pyStr ((dictGet? kvs "db_name").getD .null))
            (pyStr (.str defaultRootPassword))),
          .restartedBackend], .completed) := by
      simp [fix_db_permissions, hl, hg]
    refine ⟨fun _ hne => absurd rfl hne, ?_, fun h1 => absurd h1 (by decide)⟩
    constructor
    · intro _; rfl
    · intro _
      rw [hfix]
      exact ⟨_, List.mem_cons_self _ _⟩
  · by_cases h1 : db_choice = "1"
    · subst h1
      have hfix : fix_db_permissions config_str "1" =
          ([.ranSql (sqlScript (pyStr ((dictGet? kvs "db_name").getD .null))
              (pyStr ((dictGet? kvs "db_password").getD .null))),
            .restartedBackend], .completed) := by
        simp [fix_db_permissions, hl, hg]
      refine ⟨fun hne _ => absurd rfl hne, ?_, fun _ => ⟨_, by rw [hfix]⟩⟩
      constructor
      · rintro ⟨c, hc2⟩
        rw [hfix] at hc2
        simp at hc2
      · intro hx; exact absurd hx h2
    · have hfix : fix_db_permissions config_str db_choice =
          ([], .cancelled) := by
        simp [fix_db_permissions, hl, hg, h2, h1]
      refine ⟨fun _ _ => hfix, ?_, fun hx => absurd hx h1⟩
      constructor
      · rintro ⟨c, hc2⟩
        rw [hfix] at hc2
        simp at hc2
      · intro hx; exact absurd hx h2

/-- Witness for C9: on the sample config, input '0' cancels with no
action. -/
theorem fix_db_permissions_mode_gating_witness :
    fix_db_permissions (.output sampleConfigText) "0" = ([], .cancelled) :=
  (fix_db_permissions_mode_gating (.output sampleConfigText)
    sampleConfigMembers "0" rfl).1 (by decide) (by decide)

/-- C1 (code bug): the mode-2 write-back corrupts the config file.  On the
sample config the in-memory updated dict still carries the untouched `host`
field, but the content actually written — the dumped JSON with every double
quote replaced by backslash-quote, passed verbatim through a single-quoted
shell `echo` — contains no quote-free JSON and fails to parse on re-read, so
no field survives the round trip.  (The written content holds no single
quote, so the single-quoted `echo` model applies.) -/
theorem fix_db_permissions_writeback_corrupts :
    (fix_db_permissions (.output sampleConfigText) "2").1.head?
        = some (.wroteConfig sampleWrittenBack)
    ∧ loads sampleConfigText = some (.obj sampleConfigMembers)
    ∧ dictGet? (objSet sampleConfigMembers "db_password"
        (.str defaultRootPassword)) "host" = some (.str "db")
    ∧ (sampleWrittenBack.toList.any (fun c => c = Char.ofNat 39)) = false
    ∧ loads sampleWrittenBack = none := by
  refine ⟨rfl, rfl, rfl, by decide, rfl⟩

end ERPNextDoctor
